import Mathlib

/-!
Shallow embedding of the Specific Tool hardware and automation modules
(src/modules/hardware.py and src/modules/ui.py), together with the spec
level definitions needed to compare the code with its specification.

Modelling conventions:
* Python ints are ℤ; `int(x)` on a float truncates toward zero, which on
  the exact values arising here is `Int.tdiv` of the scaled integers.
* Python float literals 1.26, 0.03125, ..., 3.5 are modelled as the exact
  rationals they denote in the source text.  For the vibrance computation
  `int((level - 50) * 1.26)` with integer level in [0, 100] this is
  faithful to IEEE double evaluation: the double nearest to 1.26 exceeds
  126/100 by less than 1e-17, the product therefore differs from the
  exact rational by far less than the distance 1/50 of that rational to
  the nearest integer whenever it is not an integer, and for
  level in {0, 50, 100} the product rounds to exactly -63.0, 0.0, 63.0;
  hence truncation agrees with truncation of the exact rational.
* The pointer-speed quotient `(base * 1.0) / target` in `optimize` is
  genuinely float-sensitive: the binary64 rounding of base / target can land
  exactly on a midpoint of the multiplier table although the exact quotient
  is off it.  It is therefore modelled with an explicit binary64
  round-to-nearest function (`roundDouble`), not with exact division.
* Hardware writes are modelled as the list of (handle, value) pairs or
  event traces the code would emit; a raised Python exception is an
  explicit `Option String` component (`some name` for a NameError).
-/

/-- Mouse backend state: whether `self.device` holds an open handle
(`VXEMouseBackend.__init__` sets it to None; `connect` assigns a handle). -/
structure MouseState where
  device : Bool

/-- Events emitted by the VXE mouse backend: a raw HID write
(`self.device.write(data)`) or a `time.sleep` delay in milliseconds. -/
inductive MouseEvent where
  | send (packet : List ℕ)
  | sleepMs (ms : ℕ)
deriving DecidableEq

/-- Global command-packet names of modules/hardware.py.  Line 10 reads
`from .constants import CMD_HZ_8000, CMD_HZ_1000, SEQ_DPI_1600, SEQ_DPI_800`;
no other statement of the module binds a CMD_HZ name, so a lookup of any
other CMD_HZ name fails (Python NameError).  The packet byte values live in
modules/constants.py, which only declares them; they are opaque parameters
here. -/
def commandGlobals (cmd_hz_8000 cmd_hz_1000 : List ℕ) : String → Option (List ℕ) := fun n =>
  if n = "CMD_HZ_8000" then some cmd_hz_8000
  else if n = "CMD_HZ_1000" then some cmd_hz_1000
  else none

/-- VXEMouseBackend.set_game_mode (hardware.py lines 72-76): if no device,
return; else send every packet of SEQ_DPI_1600 with a 0.02 s pause after
each, sleep 0.25 s, then send the packet named CMD_HZ_2000.  The final name
is resolved in the module namespace; an unbound name raises NameError after
the earlier sends already happened. -/
def set_game_mode (globals : String → Option (List ℕ)) (seq_dpi_1600 : List (List ℕ))
    (s : MouseState) : List MouseEvent × Option String :=
  if s.device = false then ([], none)
  else
    let pre := (seq_dpi_1600.map (fun p => [MouseEvent.send p, MouseEvent.sleepMs 20])).flatten
      ++ [MouseEvent.sleepMs 250]
    match globals "CMD_HZ_2000" with
    | some p => (pre ++ [MouseEvent.send p], none)
    | none => (pre, some "CMD_HZ_2000")

/-- VXEMouseBackend.set_desktop_mode (hardware.py lines 78-82): same shape
as set_game_mode with SEQ_DPI_800 and final command name CMD_HZ_1000. -/
def set_desktop_mode (globals : String → Option (List ℕ)) (seq_dpi_800 : List (List ℕ))
    (s : MouseState) : List MouseEvent × Option String :=
  if s.device = false then ([], none)
  else
    let pre := (seq_dpi_800.map (fun p => [MouseEvent.send p, MouseEvent.sleepMs 20])).flatten
      ++ [MouseEvent.sleepMs 250]
    match globals "CMD_HZ_1000" with
    | some p => (pre ++ [MouseEvent.send p], none)
    | none => (pre, some "CMD_HZ_1000")

/-- NvidiaService state: the `available` flag `self._is_avail` and the
enumerated display handles `self._handles` (hardware.py lines 96-126). -/
structure GpuState where
  is_avail : Bool
  handles : List ℤ

/-- The hardware vibrance value `max(-63, min(63, int((level - 50) * 1.26)))`
of hardware.py line 132; `int` truncates toward zero, so on integer input it
is the truncated quotient of (level - 50) * 126 by 100. -/
def vibranceVal (level : ℤ) : ℤ :=
  max (-63) (min 63 (Int.tdiv ((level - 50) * 126) 100))

/-- NvidiaService.set_vibrance (hardware.py lines 128-137): if not available,
return (no write, no error); a None level defaults to 50; if primary_only and
the handle list is non-empty, write the value to the first handle, otherwise
write it to every handle.  The result is the list of (handle, value) writes
passed to nvapi_SetDVCLevel. -/
def set_vibrance (s : GpuState) (level : Option ℤ) (primary_only : Bool) : List (ℤ × ℤ) :=
  if s.is_avail = false then []
  else
    let lv : ℤ := match level with | none => 50 | some v => v
    let val := vibranceVal lv
    if primary_only then
      match s.handles with
      | [] => []
      | d :: _ => [(d, val)]
    else
      s.handles.map (fun d => (d, val))

/-- The pointer-speed multiplier table WindowsMouseService._MAP
(hardware.py line 140), in its insertion order. -/
def mapPairs : List (ℤ × ℚ) :=
  [(1, 0.03125), (2, 0.0625), (3, 0.125), (4, 0.25), (5, 0.375), (6, 0.5), (7, 0.625),
   (8, 0.75), (9, 0.875), (10, 1.0), (11, 1.25), (12, 1.5), (13, 1.75), (14, 2.0),
   (15, 2.25), (16, 2.5), (17, 2.75), (18, 3.0), (19, 3.25), (20, 3.5)]

/-- Table access `self._MAP[k]`; the lambda in `optimize` only ever applies
it to keys of the table, so the out-of-table default 0 is never consulted. -/
def MAPval (k : ℤ) : ℚ := (mapPairs.lookup k).getD 0

/-- The key list `self._MAP.keys()` in dict insertion order. -/
def mapKeys : List ℤ := mapPairs.map Prod.fst

/-- Python `min(..., key=f)` accumulator: keeps the current best and replaces
it only when a strictly smaller key value appears, so the first of several
minima wins. -/
def pyMinBy (f : ℤ → ℚ) : ℤ → List ℤ → ℤ
  | b, [] => b
  | b, x :: xs => pyMinBy f (if f x < f b then x else b) xs

/-- Python `min(keys, key=f)`: the first element is the initial best.
Python raises ValueError on an empty iterable; the only call site passes the
non-empty `mapKeys`, so the 0 placeholder for [] is never reached. -/
def pyMin (f : ℤ → ℚ) : List ℤ → ℤ
  | [] => 0
  | x :: xs => pyMinBy f x xs

/-- Round half to even on the integers: the rounding applied to the scaled
mantissa of an IEEE-754 binary64 operation result. -/
def roundHalfEvenZ (x : ℚ) : ℤ :=
  if x - ⌊x⌋ < 1 / 2 then ⌊x⌋
  else if 1 / 2 < x - ⌊x⌋ then ⌊x⌋ + 1
  else if ⌊x⌋ % 2 = 0 then ⌊x⌋ else ⌊x⌋ + 1

/-- The IEEE-754 binary64 value nearest to a rational (round to nearest, ties
to even): the scaled 53-bit mantissa is rounded half-even and reattached to
the binades exponent.  Overflow and subnormal underflow are not modelled; the
values this file applies it to (positive integers at most 2^53 and their
quotients, which lie between 2^-53 and 2^53) are all in the normal range,
where this is exactly the double nearest to the input. -/
def roundDouble (q : ℚ) : ℚ :=
  if q = 0 then 0
  else if 0 < q then
    (roundHalfEvenZ (q * 2 ^ ((52 : ℤ) - Int.log 2 q)) : ℚ) * 2 ^ (Int.log 2 q - (52 : ℤ))
  else
    -((roundHalfEvenZ (-q * 2 ^ ((52 : ℤ) - Int.log 2 (-q))) : ℚ) * 2 ^ (Int.log 2 (-q) - (52 : ℤ)))

/-- The desired multiplier `req = (base * self._MAP.get(10, 1.0)) / target`
of hardware.py line 152, in Python float (IEEE binary64) arithmetic:
`base * 1.0` converts base to the nearest double (multiplying by 1.0 is then
exact), the division converts target to the nearest double and returns the
correctly rounded quotient of the two doubles. -/
def reqRatio (base target : ℤ) : ℚ :=
  roundDouble (roundDouble (base * ((mapPairs.lookup 10).getD 1.0)) / roundDouble target)

/-- The index chosen on hardware.py line 153:
`min(self._MAP.keys(), key=lambda k: abs(self._MAP[k] - req))`. -/
def optIndex (base target : ℤ) : ℤ :=
  pyMin (fun k => |MAPval k - reqRatio base target|) mapKeys

/-- WindowsMouseService state: the pointer-speed index captured once at
construction (`self._default = self._get_speed()`) and the current OS
pointer-speed value last passed to SystemParametersInfoW(0x0071). -/
structure OsState where
  default : ℤ
  os_speed : ℤ

/-- WindowsMouseService.__init__ (hardware.py lines 141-143): captures the
current system speed as the immutable default. -/
def windowsMouseServiceInit (sys_speed : ℤ) : OsState :=
  { default := sys_speed, os_speed := sys_speed }

/-- WindowsMouseService.set_speed (hardware.py lines 148-149): passes
`max(1, min(20, int(index)))` to the OS call. -/
def set_speed (s : OsState) (index : ℤ) : OsState :=
  { s with os_speed := max 1 (min 20 index) }

/-- WindowsMouseService.reset (hardware.py line 150):
`self.set_speed(self._default)`. -/
def reset (s : OsState) : OsState := set_speed s s.default

/-- WindowsMouseService.optimize (hardware.py lines 151-153): computes the
nearest table index for req and applies it through set_speed. -/
def optimize (s : OsState) (base target : ℤ) : OsState :=
  set_speed s (optIndex base target)

/-- The recorded engine mode; the code stores the strings "unknown",
"desktop" and "game" in `engine.current_state`. -/
inductive Mode where
  | unknown
  | desktop
  | game
deriving DecidableEq

/-- Engine state visible to ui.py: the `running` flag and the recorded mode
`current_state`.  The spec fixes unknown as the sole initial value on
process start. -/
structure EngineState where
  running : Bool
  current_state : Mode
deriving DecidableEq

/-- App.toggle_engine (ui.py lines 457-472): flips `engine.running`; on the
stop path it runs the safety protocol and then assigns
`self.engine.current_state = "unknown"` (line 472).  UI label updates and
the hardware effects of the safety protocol do not touch the recorded
mode and are omitted. -/
def toggle_engine (s : EngineState) : EngineState :=
  let r := !s.running
  if r then { s with running := r }
  else { s with running := r, current_state := Mode.unknown }

/-- Modelled from the spec: the AutomationEngine polling tick lives in
modules/core.py, which is not under src/.  Spec section 4.2: while running,
each tick computes targetMode = Game if the game list intersects the
running-process set, else Desktop, and records it; it never records
Unknown. -/
def engineTick (games procs : List String) (s : EngineState) : EngineState :=
  if s.running = false then s
  else if games.any (fun g => procs.contains g) then { s with current_state := Mode.game }
  else { s with current_state := Mode.desktop }

/-- Modelled from the spec: the DeviceUnavailable occurrence logging lives in
modules/core.py, which is not under src/.  Spec section 7: mode calls on a
missing mouse are logged once per occurrence, not per tick.  The model logs
exactly at ticks where availability transitions from connected (true) to
disconnected (false), given the availability before the first tick. -/
def occurrenceLogs : Bool → List Bool → ℕ
  | _, [] => 0
  | prev, t :: ts => (if prev && !t then 1 else 0) + occurrenceLogs t ts

/-- Truncation toward zero of a rational, the behaviour of Python `int()`
on a float value. -/
def truncRat (q : ℚ) : ℤ := if 0 ≤ q then ⌊q⌋ else ⌈q⌉

/-- Round to nearest (halves up), the reading of the word round used by the
spec sentence for the vibrance mapping. -/
def roundNearestRat (q : ℚ) : ℤ := ⌊q + 1 / 2⌋

/-- The vibrance mapping as the spec words it:
clamp(-63, 63, round((level - 50) * 1.26)) with round-to-nearest. -/
def vibranceRoundSpec (level : ℤ) : ℤ :=
  max (-63) (min 63 (roundNearestRat (((level : ℚ) - 50) * (126 / 100))))

/-- C5: with the available flag false, every set_vibrance call performs no
hardware write at all, whatever the arguments; the guard on hardware.py
line 129 returns before any handle is touched, so nothing is raised. -/
theorem set_vibrance_noop_when_unavailable (level : Option ℤ) (primary_only : Bool)
    (hs : List ℤ) :
    set_vibrance { is_avail := false, handles := hs } level primary_only = [] := rfl

/-- C6: with the backend available, level 50 maps to hardware value 0,
level 100 to 63 and level 0 to -63, as written to a display handle. -/
theorem vibrance_anchor_levels :
    set_vibrance { is_avail := true, handles := [0] } (some 50) true = [(0, 0)] ∧
    set_vibrance { is_avail := true, handles := [0] } (some 100) true = [(0, 63)] ∧
    set_vibrance { is_avail := true, handles := [0] } (some 0) true = [(0, -63)] := by
  refine ⟨by decide, by decide, by decide⟩

/-- C8: with the backend available, set_vibrance writes exactly to the first
enumerated handle when primary_only is true and a handle exists, and to
every enumerated handle when primary_only is false. -/
theorem set_vibrance_fanout (level : ℤ) (d : ℤ) (t hs : List ℤ) :
    set_vibrance { is_avail := true, handles := d :: t } (some level) true
      = [(d, vibranceVal level)] ∧
    set_vibrance { is_avail := true, handles := hs } (some level) false
      = hs.map (fun x => (x, vibranceVal level)) := by
  exact ⟨rfl, rfl⟩

/-- C9: the captured default is never modified by set_speed or optimize, and
reset applies exactly the captured value through set_speed. -/
theorem reset_applies_captured_default (s : OsState) (i base target : ℤ) :
    (set_speed s i).default = s.default ∧
    (optimize s base target).default = s.default ∧
    (reset s).default = s.default ∧
    reset s = set_speed s s.default := by
  exact ⟨rfl, rfl, rfl, rfl⟩

/-- C10: set_speed passes the index clamped into [1, 20] to the OS call, so
no out-of-range value ever reaches SystemParametersInfoW. -/
theorem set_speed_clamps_index (s : OsState) (i : ℤ) :
    (set_speed s i).os_speed = max 1 (min 20 i) ∧
    1 ≤ (set_speed s i).os_speed ∧ (set_speed s i).os_speed ≤ 20 := by
  refine ⟨rfl, ?_, ?_⟩
  · exact le_max_left 1 _
  · exact max_le (by norm_num) (min_le_left 20 i)

/-- C1: with a connected device, set_game_mode sends the DPI sequence with
the 20 ms pacing and the 250 ms settle delay, but the final mode-switch
command name CMD_HZ_2000 is not bound in the module (hardware.py line 10
imports only CMD_HZ_8000 and CMD_HZ_1000), so the call raises NameError and
no final command packet is sent; set_desktop_mode by contrast resolves
CMD_HZ_1000 and completes. -/
theorem set_game_mode_undefined_final_command (c8000 c1000 : List ℕ)
    (seqG seqD : List (List ℕ)) :
    (set_game_mode (commandGlobals c8000 c1000) seqG { device := true }).2
      = some "CMD_HZ_2000" ∧
    (set_game_mode (commandGlobals c8000 c1000) seqG { device := true }).1
      = (seqG.map (fun p => [MouseEvent.send p, MouseEvent.sleepMs 20])).flatten
        ++ [MouseEvent.sleepMs 250] ∧
    (set_desktop_mode (commandGlobals c8000 c1000) seqD { device := true }).2 = none := by
  refine ⟨rfl, rfl, rfl⟩

/-- C2 counterexample: the state (running, mode = Game) is reachable (start
from the initial state, then one tick with the game running), and the stop
path of toggle_engine resets the recorded mode from Game to Unknown
(ui.py line 472), so the program does set the mode back to Unknown. -/
theorem toggle_engine_stop_resets_mode_to_unknown :
    engineTick ["game.exe"] ["game.exe", "explorer.exe"]
        (toggle_engine { running := false, current_state := Mode.unknown })
      = { running := true, current_state := Mode.game } ∧
    (toggle_engine { running := true, current_state := Mode.game }).current_state
      = Mode.unknown ∧
    Mode.game ≠ Mode.unknown := by
  refine ⟨by decide, by decide, by decide⟩

/-- C2 amended: once the mode has left Unknown, engine ticks never set it
back to Unknown, and toggle_engine sets it back to Unknown exactly when it
stops a running engine; so Unknown recurs on stop as well as on fresh
process start. -/
theorem mode_unknown_recurrence (s : EngineState) (games procs : List String)
    (h : s.current_state ≠ Mode.unknown) :
    (engineTick games procs s).current_state ≠ Mode.unknown ∧
    ((toggle_engine s).current_state = Mode.unknown ↔ s.running = true) := by
  constructor
  · unfold engineTick
    split
    · exact h
    · split <;> simp
  · unfold toggle_engine
    cases hr : s.running <;> simp [hr]
    exact h

/-- C2 witness: the amended statement instantiated at the reachable state
(running, mode = Game). -/
theorem mode_unknown_recurrence_witness :
    (engineTick [] [] { running := true, current_state := Mode.game }).current_state
      ≠ Mode.unknown ∧
    ((toggle_engine { running := true, current_state := Mode.game }).current_state
        = Mode.unknown
      ↔ ({ running := true, current_state := Mode.game } : EngineState).running = true) :=
  mode_unknown_recurrence { running := true, current_state := Mode.game } [] [] (by decide)

/-- Auxiliary: a run of consecutive disconnected ticks after the first
produces no further log events. -/
theorem occurrenceLogs_false_replicate (n : ℕ) :
    occurrenceLogs false (List.replicate n false) = 0 := by
  induction n with
  | zero => rfl
  | succ n ih => simpa [List.replicate_succ, occurrenceLogs] using ih

/-- Auxiliary: occurrence logging splits over concatenation, the second part
starting from the availability at the end of the first. -/
theorem occurrenceLogs_append (us : List Bool) :
    ∀ (ts : List Bool) (p : Bool),
      occurrenceLogs p (ts ++ us)
        = occurrenceLogs p ts + occurrenceLogs (ts.getLastD p) us := by
  intro ts
  induction ts with
  | nil => intro p; simp [occurrenceLogs]
  | cons t ts ih =>
    intro p
    simp only [List.cons_append, occurrenceLogs, List.append_eq, ih t, List.getLastD_cons]
    omega

/-- Auxiliary: the availability at the end of a disconnected run is
disconnected. -/
theorem getLastD_replicate_false (n : ℕ) (p : Bool) :
    (List.replicate (n + 1) false).getLastD p = false := by
  induction n generalizing p with
  | zero => rfl
  | succ n ih => simpa [List.replicate_succ, List.getLastD_cons] using ih false

/-- C7: with no open device handle, set_game_mode and set_desktop_mode send
nothing, emit no event at all and raise nothing (hardware.py lines 73 and
79 return before any send); and the occurrence logger logs a disconnection
lasting n+1 ticks exactly once, and two separate disconnections exactly
twice, never once per tick. -/
theorem mouse_mode_noop_when_disconnected (globals : String → Option (List ℕ))
    (seqG seqD : List (List ℕ)) (n m : ℕ) :
    set_game_mode globals seqG { device := false } = ([], none) ∧
    set_desktop_mode globals seqD { device := false } = ([], none) ∧
    occurrenceLogs true (List.replicate (n + 1) false) = 1 ∧
    occurrenceLogs true
        (List.replicate (n + 1) false ++ true :: List.replicate (m + 1) false) = 2 := by
  have h1 : occurrenceLogs true (List.replicate (n + 1) false) = 1 := by
    simpa [List.replicate_succ, occurrenceLogs] using occurrenceLogs_false_replicate n
  refine ⟨rfl, rfl, h1, ?_⟩
  rw [occurrenceLogs_append, h1, getLastD_replicate_false]
  have h2 : occurrenceLogs false (true :: List.replicate (m + 1) false) = 1 := by
    simpa [occurrenceLogs, List.replicate_succ]
      using occurrenceLogs_false_replicate m
  omega

/-- Auxiliary: truncated integer division by a positive natural is exactly
truncation toward zero of the rational quotient, the behaviour of Python
`int()` applied to the exact value. -/
theorem tdiv_eq_truncRat (a : ℤ) (d : ℕ) (hd : 0 < d) :
    Int.tdiv a (d : ℤ) = truncRat ((a : ℚ) / (d : ℚ)) := by
  have hdq : (0 : ℚ) < (d : ℚ) := by exact_mod_cast hd
  rcases le_or_lt 0 a with ha | ha
  · have hq : (0 : ℚ) ≤ (a : ℚ) / (d : ℚ) :=
      div_nonneg (by exact_mod_cast ha) hdq.le
    rw [truncRat, if_pos hq, Rat.floor_intCast_div_natCast,
      Int.tdiv_eq_ediv ha (Int.natCast_nonneg d)]
  · have hq : ¬ (0 : ℚ) ≤ (a : ℚ) / (d : ℚ) := by
      push_neg
      exact div_neg_of_neg_of_pos (by exact_mod_cast ha) hdq
    rw [truncRat, if_neg hq]
    have hneg : -((a : ℚ) / (d : ℚ)) = (((-a : ℤ) : ℚ)) / (d : ℚ) := by
      push_cast
      ring
    have hceil : ⌈(a : ℚ) / (d : ℚ)⌉ = -(((-a) : ℤ) / (d : ℤ)) := by
      rw [← Rat.floor_intCast_div_natCast (-a) d, ← hneg, Int.floor_neg, neg_neg]
    have htd : Int.tdiv a (d : ℤ) = -Int.tdiv (-a) (d : ℤ) := by
      rw [Int.neg_tdiv, neg_neg]
    rw [hceil, htd, Int.tdiv_eq_ediv (by omega) (Int.natCast_nonneg d)]

/-- Auxiliary: the vibrance value of the code equals the clamped truncation
toward zero of the exact product (level - 50) * 1.26. -/
theorem vibranceVal_eq_truncRat (level : ℤ) :
    vibranceVal level
      = max (-63) (min 63 (truncRat (((level : ℚ) - 50) * (126 / 100)))) := by
  have hcast : ((level : ℚ) - 50) * (126 / 100)
      = (((level - 50) * 126 : ℤ) : ℚ) / ((100 : ℕ) : ℚ) := by
    push_cast
    ring
  rw [vibranceVal, hcast, ← tdiv_eq_truncRat _ _ (by norm_num)]
  norm_num

/-- C3 counterexample: at level 53 the code writes hardware value 3
(truncation of 3.78), while the claimed formula with round-to-nearest
yields 4. -/
theorem set_vibrance_truncates_not_rounds :
    set_vibrance { is_avail := true, handles := [0] } (some 53) true = [((0 : ℤ), (3 : ℤ))] ∧
    vibranceRoundSpec 53 = 4 ∧ (3 : ℤ) ≠ 4 := by
  refine ⟨by decide, ?_, by decide⟩
  unfold vibranceRoundSpec roundNearestRat
  have h : (((53 : ℤ) : ℚ) - 50) * (126 / 100) + 1 / 2 = 107 / 25 := by norm_num
  rw [h]
  have h2 : ⌊(107 : ℚ) / 25⌋ = 4 := by norm_num
  rw [h2]
  decide

/-- C3 amended: for every integer level in [0, 100] with the backend
available, set_vibrance writes clamp(-63, 63, trunc((level - 50) * 1.26))
to the display handle(s), where trunc truncates toward zero (Python int),
not round-to-nearest. -/
theorem set_vibrance_trunc_formula (level : ℤ) (hs : List ℤ) (d : ℤ) (t : List ℤ)
    (hlo : 0 ≤ level) (hhi : level ≤ 100) :
    set_vibrance { is_avail := true, handles := hs } (some level) false
      = hs.map (fun x => (x, max (-63) (min 63 (truncRat (((level : ℚ) - 50) * (126 / 100)))))) ∧
    set_vibrance { is_avail := true, handles := d :: t } (some level) true
      = [(d, max (-63) (min 63 (truncRat (((level : ℚ) - 50) * (126 / 100)))))] := by
  rw [← vibranceVal_eq_truncRat]
  exact ⟨rfl, rfl⟩

/-- C3 amended witness: the formula instantiated at level 53 and one
display handle. -/
theorem set_vibrance_trunc_formula_witness :
    set_vibrance { is_avail := true, handles := [0] } (some 53) false
      = [(0 : ℤ)].map
          (fun x => (x, max (-63) (min 63 (truncRat ((((53 : ℤ) : ℚ) - 50) * (126 / 100)))))) ∧
    set_vibrance { is_avail := true, handles := (0 : ℤ) :: ([] : List ℤ)} (some 53) true
      = [((0 : ℤ), max (-63) (min 63 (truncRat ((((53 : ℤ) : ℚ) - 50) * (126 / 100)))))] :=
  set_vibrance_trunc_formula 53 [0] 0 [] (by decide) (by decide)

